import Mathlib

/-!
# PurpleAir display: the configuration header `config.example.h`

The header is a flat table of build-time constants: three preprocessor
definitions and eight namespace-scope variable definitions.  It is embedded in
two layers that share their data:

* one Lean constant per C++ name, holding the value the name stands for;
* `header`, the list of the header's top-level items in source order, each
  with its declared type, its name and that value.

Properties of the values are proved on the constants, properties of the
declarations (const qualification, linkage, type names used) on `header`.
-/

namespace PurpleAirDisplay

/-! ## Values -/

/-- Conversion of an integer initialiser to `uint32_t`: reduction modulo `2^32`. -/
def toUInt32 (n : Int) : Nat := (n % 2 ^ 32).toNat

/-- Line 2, `#define DEBUG_STRINGS false`: the replacement text. -/
def DEBUG_STRINGS : String := "false"

/-- Line 5, `const char* ssid = "Starbucks Wifi";`. -/
def ssid : String := "Starbucks Wifi"

/-- Line 6, `const char* password = "psk here";`. -/
def password : String := "psk here"

/-- Line 7, `const char* this_hostname = "PurpleAir Display";`. -/
def this_hostname : String := "PurpleAir Display"

/-- Line 10, `const char* api_server = "192.168.10.10";`. -/
def api_server : String := "192.168.10.10"

/-- Line 11, `const int api_port = 80;`. -/
def api_port : Int := 80

/-- Line 12, `const char* api_url = "/json";`. -/
def api_url : String := "/json"

/-- Line 15, the initialiser written in `const uint32_t poll_api_seconds = 40;`:
the integer literal, before any conversion. -/
def poll_api_seconds_literal : Int := 40

/-- Line 15, `const uint32_t poll_api_seconds = 40;`: the literal converted to
the declared 32-bit unsigned type. -/
def poll_api_seconds : Nat := toUInt32 poll_api_seconds_literal

/-- Line 18, `#define OTA_IS_PASSWORD_PROTECTED true`: the replacement text. -/
def OTA_IS_PASSWORD_PROTECTED : String := "true"

/-- Line 22, `#define PASSWORD_IS_MD5_HASH false`: the replacement text. -/
def PASSWORD_IS_MD5_HASH : String := "false"

/-- Line 24, `const char* ota_password = "hackme";`. -/
def ota_password : String := "hackme"

/-- The boolean a replacement text denotes where the firmware tests the gate:
the C++ literals `true` and `false`; any other text is not a boolean literal. -/
def boolOfToken (body : String) : Option Bool :=
  if body = "true" then some true
  else if body = "false" then some false
  else none

/-! ## Declarations -/

/-- Type names the header uses.  `char` and `int` are keywords of the
language; every other name has to be declared before its use. -/
inductive BaseType
  | char
  | int
  | named (name : String)
  deriving DecidableEq, Repr

/-- Declared types: a possibly const-qualified base type, or a possibly
const-qualified pointer to another type.  `const char*` is
`pointer (base char true) false`: the pointee is const, the pointer is not. -/
inductive CType
  | base (b : BaseType) (isConst : Bool)
  | pointer (pointee : CType) (isConst : Bool)
  deriving DecidableEq, Repr

/-- Values held by the header's objects: a pointer is identified with the
string it points to. -/
inductive Value
  | str (s : String)
  | int (n : Int)
  deriving DecidableEq, Repr

/-- Top-level items of the header. -/
inductive Item
  | define (name : String) (body : String)
  | var (type : CType) (name : String) (value : Value)
  deriving DecidableEq, Repr

/-- The type written `const char*`. -/
def constCharPtr : CType := .pointer (.base .char true) false

/-- The type written `const int`. -/
def constInt : CType := .base .int true

/-- The type written `const uint32_t`. -/
def constUInt32 : CType := .base (.named "uint32_t") true

/-- The header `config.example.h`, item by item in source order.  It holds no
`#include`, no `typedef`, no `extern`, no `static` and no `inline`. -/
def header : List Item :=
  [ .define "DEBUG_STRINGS" DEBUG_STRINGS,
    .var constCharPtr "ssid" (.str ssid),
    .var constCharPtr "password" (.str password),
    .var constCharPtr "this_hostname" (.str this_hostname),
    .var constCharPtr "api_server" (.str api_server),
    .var constInt "api_port" (.int api_port),
    .var constCharPtr "api_url" (.str api_url),
    .var constUInt32 "poll_api_seconds" (.int poll_api_seconds),
    .define "OTA_IS_PASSWORD_PROTECTED" OTA_IS_PASSWORD_PROTECTED,
    .define "PASSWORD_IS_MD5_HASH" PASSWORD_IS_MD5_HASH,
    .var constCharPtr "ota_password" (.str ota_password) ]

/-- Name an item introduces. -/
def Item.name : Item → String
  | .define n _ => n
  | .var _ n _ => n

/-- Whether the declared object itself is const-qualified (the outermost
qualifier of its type). -/
def CType.topConst : CType → Bool
  | .base _ k => k
  | .pointer _ k => k

/-- Whether a pointer type points to const-qualified data; `false` for a type
that is not a pointer. -/
def CType.pointeeConst : CType → Bool
  | .base _ _ => false
  | .pointer t _ => t.topConst

/-- Type names a declared type mentions that are not keywords. -/
def CType.typeNames : CType → List String
  | .base (.named n) _ => [n]
  | .base _ _ => []
  | .pointer t _ => t.typeNames

/-- Linkage of a name introduced at namespace scope. -/
inductive Linkage
  | external
  | internal
  | noLinkage
  deriving DecidableEq, Repr

/-- The C++ linkage rule for the header's items: a namespace-scope variable
whose type is const-qualified at top level, and that is declared neither
`extern` nor `inline` (no item of the header is), has internal linkage; any
other namespace-scope variable has external linkage.  A preprocessor
definition is replaced before translation and names no entity. -/
def Item.linkage : Item → Linkage
  | .define _ _ => .noLinkage
  | .var t _ _ => if t.topConst then .internal else .external

/-- Non-keyword type names an item needs. -/
def Item.typeNames : Item → List String
  | .define _ _ => []
  | .var t _ _ => t.typeNames

/-- Type names a list of items needs from outside: no item kind of the header
declares a type name and the header includes no file, so every non-keyword
type name it mentions has to be provided by whoever includes it. -/
def requiredTypeNames : List Item → List String
  | [] => []
  | i :: is => i.typeNames ++ requiredTypeNames is

/-- Items of `h` that define the name `n`. -/
def definitions (h : List Item) (n : String) : List Item :=
  h.filter (fun i => i.name == n)

/-- The eleven fields of the data model of the specification (section 3), in
its order. -/
inductive Field
  | debug_strings_enabled
  | wifi_ssid
  | wifi_password
  | device_hostname
  | api_server_host
  | api_server_port
  | api_path
  | poll_interval_seconds
  | ota_password_protected
  | ota_password_is_hashed
  | ota_password
  deriving DecidableEq, Repr

/-- Every field of the data model, in the order of the specification. -/
def Field.all : List Field :=
  [ .debug_strings_enabled, .wifi_ssid, .wifi_password, .device_hostname,
    .api_server_host, .api_server_port, .api_path, .poll_interval_seconds,
    .ota_password_protected, .ota_password_is_hashed, .ota_password ]

/-- The C++ name that carries a field of the data model. -/
def Field.symbol : Field → String
  | .debug_strings_enabled => "DEBUG_STRINGS"
  | .wifi_ssid => "ssid"
  | .wifi_password => "password"
  | .device_hostname => "this_hostname"
  | .api_server_host => "api_server"
  | .api_server_port => "api_port"
  | .api_path => "api_url"
  | .poll_interval_seconds => "poll_api_seconds"
  | .ota_password_protected => "OTA_IS_PASSWORD_PROTECTED"
  | .ota_password_is_hashed => "PASSWORD_IS_MD5_HASH"
  | .ota_password => "ota_password"

/-! ## Objects at run time -/

/-- Run-time contents of the objects a header defines, by name. -/
abbrev Store := List (String × Value)

/-- The object an item creates, if any: a preprocessor definition creates
none. -/
def Item.binding : Item → Option (String × Value)
  | .define _ _ => none
  | .var _ n v => some (n, v)

/-- The store as compiled: every variable holds its initialiser. -/
def compiled (h : List Item) : Store := h.filterMap Item.binding

/-- Declared type of the variable `n`; `none` when `n` is not a variable of
the header (in particular when it is a preprocessor definition). -/
def declaredType : List Item → String → Option CType
  | [], _ => none
  | .define _ _ :: is, n => declaredType is n
  | .var t m _ :: is, n => if m = n then some t else declaredType is n

/-- Whether a value has the kind a declared type stores: strings for pointers
to `char`, integers for the arithmetic types. -/
def Value.hasKind : Value → CType → Bool
  | .str _, .pointer (.base .char _) _ => true
  | .int _, .base .int _ => true
  | .int _, .base (.named _) _ => true
  | _, _ => false

/-- Content of the object `n`. -/
def read (σ : Store) (n : String) : Option Value :=
  match σ with
  | [] => none
  | (m, v) :: rest => if m = n then some v else read rest n

/-- Store after `n` has received `v`. -/
def write (σ : Store) (n : String) (v : Value) : Store :=
  match σ with
  | [] => []
  | (m, w) :: rest => if m = n then (m, v) :: write rest n v else (m, w) :: write rest n v

/-- An assignment `n = v` anywhere in the firmware that includes the header.
It is well formed only when `n` is a variable whose type is not const-qualified
at top level and `v` has the kind of that type; an ill-formed assignment is
rejected at build time (`none`). -/
def assign (h : List Item) (σ : Store) (n : String) (v : Value) : Option Store :=
  match declaredType h n with
  | none => none
  | some t => if t.topConst || !(v.hasKind t) then none else some (write σ n v)

/-- A run of the firmware as the sequence of assignments it performs on the
header's objects. -/
def run (h : List Item) : Store → List (String × Value) → Option Store
  | σ, [] => some σ
  | σ, (n, v) :: ws =>
    match assign h σ n v with
    | none => none
    | some σ' => run h σ' ws

/-! ## Well-formedness of the values -/

/-- Hexadecimal digit, either case. -/
def isHexChar (c : Char) : Bool :=
  c.isDigit || ('a' ≤ c && c ≤ 'f') || ('A' ≤ c && c ≤ 'F')

/-- Textual form of an MD5 digest: exactly 32 hexadecimal characters. -/
def isMd5Digest (s : String) : Bool :=
  s.length == 32 && s.toList.all isHexChar

/-- Fields of a text separated by `.`; a text without `.` is one field. -/
def splitDots : List Char → List (List Char)
  | [] => [[]]
  | c :: cs =>
    if c = '.' then [] :: splitDots cs
    else
      match splitDots cs with
      | [] => [[c]]
      | f :: fs => (c :: f) :: fs

/-- Value of a non-empty run of decimal digits; `none` for an empty field or
one with another character. -/
def decimalValue (cs : List Char) : Option Nat :=
  if cs.isEmpty || !(cs.all Char.isDigit) then none
  else some (cs.foldl (fun n c => 10 * n + (c.toNat - '0'.toNat)) 0)

/-- Decimal fields of a dotted text, each `none` when it is not a number. -/
def dottedFields (s : String) : List (Option Nat) :=
  (splitDots s.toList).map decimalValue

/-- Dotted-quad IPv4 address: exactly four fields separated by `.`, each a
non-empty decimal number in `0..255`. -/
def isDottedQuad (s : String) : Bool :=
  (dottedFields s).length == 4 &&
    (dottedFields s).all (fun f =>
      match f with
      | some n => n ≤ 255
      | none => false)

/-- Whether an item is fixed once the firmware is built: a preprocessor
definition is text replaced at build time; a variable is fixed exactly when
the object itself is const. -/
def Item.fixedAtBuild : Item → Bool
  | .define _ _ => true
  | .var t _ _ => t.topConst

/-- Preprocessor definitions of the header with their replacement text, in
source order. -/
def defines : List Item → List (String × String)
  | [] => []
  | .define n b :: is => (n, b) :: defines is
  | .var _ _ _ :: is => defines is

/-- Declared types of the header's variables, in source order. -/
def variableTypes : List Item → List (String × CType)
  | [] => []
  | .define _ _ :: is => variableTypes is
  | .var t n _ :: is => (n, t) :: variableTypes is

/-! ## Sanity of the predicates -/

/-- The digest predicate accepts a real MD5 digest and rejects a text that is
too short or holds a character that is not hexadecimal. -/
theorem isMd5Digest_examples :
    isMd5Digest "5f4dcc3b5aa765d61d8327deb882cf99" = true ∧
    isMd5Digest "5f4dcc3b5aa765d61d8327deb882cf9" = false ∧
    isMd5Digest "5f4dcc3b5aa765d61d8327deb882cfzz" = false := by
  refine ⟨by decide, by decide, by decide⟩

/-- The dotted-quad predicate rejects three fields, five fields, an empty
field, a field above 255 and a field that is not a number. -/
theorem isDottedQuad_examples :
    isDottedQuad "0.0.0.0" = true ∧
    isDottedQuad "192.168.10" = false ∧
    isDottedQuad "192.168.10.10.1" = false ∧
    isDottedQuad "192..10.10" = false ∧
    isDottedQuad "192.168.10.256" = false ∧
    isDottedQuad "purpleair.local" = false := by
  refine ⟨by decide, by decide, by decide, by decide, by decide, by decide⟩

/-! ## Lemmas on stores -/

/-- Writing one name leaves every other name as it reads. -/
theorem read_write_of_ne (σ : Store) (n m : String) (v : Value) (hne : n ≠ m) :
    read (write σ n v) m = read σ m := by
  induction σ with
  | nil => rfl
  | cons p rest ih =>
    obtain ⟨k, w⟩ := p
    by_cases hk : k = n
    · subst hk
      simp [write, read, hne, ih]
    · by_cases hkm : k = m
      · subst hkm
        simp [write, read, hk]
      · simp [write, read, hk, hkm, ih]

/-- An accepted assignment targets a variable that is not const at top level
and yields the written store. -/
theorem assign_eq_some (h : List Item) (σ σ' : Store) (n : String) (v : Value)
    (ha : assign h σ n v = some σ') :
    ∃ t, declaredType h n = some t ∧ t.topConst = false ∧ σ' = write σ n v := by
  unfold assign at ha
  cases hd : declaredType h n with
  | none => simp [hd] at ha
  | some t =>
    simp only [hd] at ha
    by_cases hc : t.topConst = true
    · simp [hc] at ha
    · refine ⟨t, rfl, by simpa using hc, ?_⟩
      split at ha
      · exact absurd ha (by simp)
      · exact (Option.some.inj ha).symm

/-- A variable that is const at top level reads the same after any run. -/
theorem run_preserves_const (h : List Item) (n : String) (t : CType)
    (hd : declaredType h n = some t) (hc : t.topConst = true)
    (ws : List (String × Value)) :
    ∀ σ σ', run h σ ws = some σ' → read σ' n = read σ n := by
  induction ws with
  | nil =>
    intro σ σ' hr
    simp only [run, Option.some.injEq] at hr
    rw [hr]
  | cons w ws ih =>
    intro σ σ' hr
    obtain ⟨m, v⟩ := w
    simp only [run] at hr
    cases ha : assign h σ m v with
    | none => simp [ha] at hr
    | some τ =>
      simp only [ha] at hr
      obtain ⟨u, hu, hnc, hτ⟩ := assign_eq_some h σ τ m v ha
      have hmn : m ≠ n := by
        intro hmn
        rw [hmn, hd] at hu
        have : t = u := Option.some.inj hu
        rw [← this, hc] at hnc
        exact absurd hnc (by simp)
      rw [ih τ σ' hr, hτ]
      exact read_write_of_ne σ m n v hmn

/-! ## Theorems -/

/-- C1: the configured API server port `api_port` is an integer `p` with
`1 ≤ p ≤ 65535`. -/
theorem api_port_in_tcp_range : 1 ≤ api_port ∧ api_port ≤ 65535 := by
  unfold api_port
  constructor <;> norm_num

/-- C2: the polling interval `poll_api_seconds`, a `uint32_t`, is positive and
representable in 32 unsigned bits without wrap-around: the literal written in
the header is itself positive and below `2^32`, the stored value equals it,
and so `0 < poll_api_seconds < 2^32`. -/
theorem poll_api_seconds_positive_uint32 :
    0 < poll_api_seconds_literal ∧ poll_api_seconds_literal < 2 ^ 32 ∧
    (poll_api_seconds : Int) = poll_api_seconds_literal ∧
    0 < poll_api_seconds ∧ poll_api_seconds < 2 ^ 32 := by
  unfold poll_api_seconds toUInt32 poll_api_seconds_literal
  refine ⟨by decide, by decide, by decide, by decide, by decide⟩

/-- C3: each of the three gates `DEBUG_STRINGS`, `OTA_IS_PASSWORD_PROTECTED`
and `PASSWORD_IS_MD5_HASH` is defined as exactly the text `true` or the text
`false`. -/
theorem gates_are_true_or_false :
    defines header =
      [ ("DEBUG_STRINGS", DEBUG_STRINGS),
        ("OTA_IS_PASSWORD_PROTECTED", OTA_IS_PASSWORD_PROTECTED),
        ("PASSWORD_IS_MD5_HASH", PASSWORD_IS_MD5_HASH) ] ∧
    (DEBUG_STRINGS = "true" ∨ DEBUG_STRINGS = "false") ∧
    (OTA_IS_PASSWORD_PROTECTED = "true" ∨ OTA_IS_PASSWORD_PROTECTED = "false") ∧
    (PASSWORD_IS_MD5_HASH = "true" ∨ PASSWORD_IS_MD5_HASH = "false") := by
  refine ⟨rfl, Or.inr rfl, Or.inl rfl, Or.inr rfl⟩

/-- C4, as stated, fails: `api_port` (data-model field `api_server_port`) has
internal linkage and the header needs the type name `uint32_t` from outside, so
it is false that every field has one definition with external linkage in a
header that needs no outside declaration. -/
theorem header_not_external_standalone :
    (definitions header Field.api_server_port.symbol).map Item.linkage = [Linkage.internal] ∧
    "uint32_t" ∈ requiredTypeNames header ∧
    ¬ ((∀ f : Field, (definitions header f.symbol).length = 1) ∧
        (∀ f : Field, ∀ i ∈ definitions header f.symbol, i.linkage = Linkage.external) ∧
        requiredTypeNames header = []) := by
  refine ⟨by decide, by decide, ?_⟩
  rintro ⟨-, -, hreq⟩
  exact absurd hreq (by decide)

/-- C4 (amended): the header defines exactly the eleven fields of the data
model, each once and in the order of the specification; the three gates are
preprocessor definitions without linkage, the six string pointers have
external linkage, `api_port` and `poll_api_seconds` have internal linkage; and
the one type name the header needs from outside is `uint32_t`. -/
theorem header_fields_and_linkage :
    header.map Item.name = Field.all.map Field.symbol ∧
    (Field.all.map Field.symbol).Nodup ∧
    (∀ f : Field, f ∈ Field.all) ∧
    Field.all.map (fun f => (f.symbol, (definitions header f.symbol).map Item.linkage)) =
      [ ("DEBUG_STRINGS", [Linkage.noLinkage]),
        ("ssid", [Linkage.external]),
        ("password", [Linkage.external]),
        ("this_hostname", [Linkage.external]),
        ("api_server", [Linkage.external]),
        ("api_port", [Linkage.internal]),
        ("api_url", [Linkage.external]),
        ("poll_api_seconds", [Linkage.internal]),
        ("OTA_IS_PASSWORD_PROTECTED", [Linkage.noLinkage]),
        ("PASSWORD_IS_MD5_HASH", [Linkage.noLinkage]),
        ("ota_password", [Linkage.external]) ] ∧
    requiredTypeNames header = ["uint32_t"] := by
  refine ⟨by decide, by decide, ?_, by decide, by decide⟩
  intro f
  cases f <;> decide

/-- C5, as stated, fails: `ssid` is a non-const pointer to const data, so not
every item is fixed at build time, and a run with the single well-formed
assignment `ssid = "Evil Twin"` ends in a store that differs from the compiled
one. -/
theorem ssid_pointer_is_assignable :
    declaredType header "ssid" = some constCharPtr ∧
    constCharPtr.topConst = false ∧
    run header (compiled header) [("ssid", Value.str "Evil Twin")]
      = some (write (compiled header) "ssid" (Value.str "Evil Twin")) ∧
    read (write (compiled header) "ssid" (Value.str "Evil Twin")) "ssid"
      = some (Value.str "Evil Twin") ∧
    read (compiled header) "ssid" = some (Value.str "Starbucks Wifi") ∧
    ¬ ((∀ i ∈ header, i.fixedAtBuild = true) ∧
        (∀ ws σ, run header (compiled header) ws = some σ → σ = compiled header)) := by
  refine ⟨by decide, by decide, by decide, by decide, by decide, ?_⟩
  rintro ⟨hfix, -⟩
  exact absurd (hfix (Item.var constCharPtr "ssid" (Value.str ssid)) (by decide)) (by decide)

/-- C5 (amended): after any run of well-formed assignments `api_port` and
`poll_api_seconds`, the two const objects, read as compiled; the three gates
are preprocessor definitions, not objects, and no assignment to one is well
formed; the six string fields are declared `const char*`: the pointed-to
characters are const, the pointer objects are not. -/
theorem const_fields_read_as_compiled (ws : List (String × Value)) (σ : Store)
    (hrun : run header (compiled header) ws = some σ) :
    read σ "api_port" = some (Value.int api_port) ∧
    read σ "poll_api_seconds" = some (Value.int poll_api_seconds) ∧
    (∀ (τ : Store) (v : Value),
      assign header τ "DEBUG_STRINGS" v = none ∧
      assign header τ "OTA_IS_PASSWORD_PROTECTED" v = none ∧
      assign header τ "PASSWORD_IS_MD5_HASH" v = none ∧
      assign header τ "api_port" v = none ∧
      assign header τ "poll_api_seconds" v = none) ∧
    variableTypes header =
      [ ("ssid", constCharPtr), ("password", constCharPtr),
        ("this_hostname", constCharPtr), ("api_server", constCharPtr),
        ("api_port", constInt), ("api_url", constCharPtr),
        ("poll_api_seconds", constUInt32), ("ota_password", constCharPtr) ] ∧
    constCharPtr.pointeeConst = true ∧ constCharPtr.topConst = false ∧
    constInt.topConst = true ∧ constUInt32.topConst = true := by
  have hport : declaredType header "api_port" = some constInt := by decide
  have hpoll : declaredType header "poll_api_seconds" = some constUInt32 := by decide
  refine ⟨?_, ?_, ?_, by decide, by decide, by decide, by decide, by decide⟩
  · rw [run_preserves_const header "api_port" constInt hport (by decide) ws _ σ hrun]
    decide
  · rw [run_preserves_const header "poll_api_seconds" constUInt32 hpoll (by decide) ws _ σ hrun]
    decide
  · intro τ v
    have hd1 : declaredType header "DEBUG_STRINGS" = none := by decide
    have hd2 : declaredType header "OTA_IS_PASSWORD_PROTECTED" = none := by decide
    have hd3 : declaredType header "PASSWORD_IS_MD5_HASH" = none := by decide
    refine ⟨?_, ?_, ?_, ?_, ?_⟩
    · simp [assign, hd1]
    · simp [assign, hd2]
    · simp [assign, hd3]
    · simp [assign, hport, constInt, CType.topConst]
    · simp [assign, hpoll, constUInt32, CType.topConst]

/-- Witness of `const_fields_read_as_compiled`: the run that reseats `ssid`. -/
theorem const_fields_read_as_compiled_witness :
    run header (compiled header) [("ssid", Value.str "Evil Twin")]
      = some (write (compiled header) "ssid" (Value.str "Evil Twin")) ∧
    read (write (compiled header) "ssid" (Value.str "Evil Twin")) "api_port"
      = some (Value.int api_port) ∧
    read (write (compiled header) "ssid" (Value.str "Evil Twin")) "poll_api_seconds"
      = some (Value.int poll_api_seconds) :=
  have hrun : run header (compiled header) [("ssid", Value.str "Evil Twin")]
      = some (write (compiled header) "ssid" (Value.str "Evil Twin")) := by decide
  ⟨hrun,
   (const_fields_read_as_compiled [("ssid", Value.str "Evil Twin")] _ hrun).1,
   (const_fields_read_as_compiled [("ssid", Value.str "Evil Twin")] _ hrun).2.1⟩

/-- C6: the hash flag agrees with the stored OTA password: `PASSWORD_IS_MD5_HASH`
is true if and only if `ota_password` is 32 hexadecimal characters; as shipped,
the flag is false and `ota_password` is not such a string. -/
theorem hash_flag_agrees_with_ota_password :
    (boolOfToken PASSWORD_IS_MD5_HASH = some true ↔ isMd5Digest ota_password = true) ∧
    boolOfToken PASSWORD_IS_MD5_HASH = some false ∧
    isMd5Digest ota_password = false ∧
    ota_password = "hackme" := by
  refine ⟨?_, by decide, by decide, rfl⟩
  constructor
  · intro h
    exact absurd h (by decide)
  · intro h
    exact absurd h (by decide)

/-- C7: `api_server` is a dotted-quad IPv4 address (four non-empty decimal
fields in `0..255` separated by `.`) and `api_url` is a non-empty path that
starts with `/`. -/
theorem http_target_well_formed :
    isDottedQuad api_server = true ∧
    dottedFields api_server = [some 192, some 168, some 10, some 10] ∧
    api_url ≠ "" ∧
    api_url.toList.head? = some '/' := by
  refine ⟨by decide, by decide, by decide, by decide⟩

/-- C8: as shipped, `OTA_IS_PASSWORD_PROTECTED` is true and `ota_password` is
a non-empty string. -/
theorem ota_gate_has_password :
    boolOfToken OTA_IS_PASSWORD_PROTECTED = some true ∧
    ota_password ≠ "" ∧
    0 < ota_password.length := by
  refine ⟨by decide, by decide, by decide⟩

end PurpleAirDisplay
